import Mathlib

/-!
# Verification of the Landmark Geometric Analysis Engine

Shallow embedding of `backend/app/core/facial_analyzer.py`
(class `ModernFacialBeautyAnalyzer`) and proofs of the specification
claims about it.

Modelling conventions:
* Python floats are modelled as real numbers (`ℝ`); decimal literals are
  read exactly.
* `round(x, n)` (Python round-half-to-even) is modelled by `pyRound`/`roundTo`.
* `int(x)` (Python truncation toward zero) is modelled by `pyInt`.
* A MediaPipe landmark list is modelled by `LandmarkSet`: a total indexed
  family of points together with its length (the engine reads fixed indices
  and uses `len(landmarks)` only as metadata).
* `datetime.now()` is an external effect; the analysis entry point takes the
  current time as an explicit `now : ℕ` argument and stores it in the
  `timestamp` field.
* Result assembly constructs the pydantic v2 model `FaceAnalysisResult`
  (`models/analysis.py`); pydantic validation raises `ValidationError` when a
  required submodel field is missing or out of range, and the analyzer's
  `except` block re-raises it as `AnalysisError`. The pipeline therefore
  returns `Except AnalysisError FaceAnalysisResult`, with the validation
  condition modelled by `resultValidationOk`.
* The angle-warning message (an f-string interpolating the angle label and
  the confidence float) is modelled by its content: the pair
  (angle label, confidence); only its presence/absence matters to the claims.
-/

noncomputable section

/-- A 2D landmark point in normalized image coordinates (the analyzer only
reads the `x`/`y` components of MediaPipe landmarks). -/
@[ext]
structure Point where
  x : ℝ
  y : ℝ

/-- An ordered landmark list: `size` models `len(landmarks)` and `point i`
models `landmarks[i]`. -/
structure LandmarkSet where
  size : ℕ
  point : ℕ → Point

/- The landmark-index table `self.landmarks` of the analyzer (the subset of
entries read by the embedded analyses). -/
namespace Idx

def nose_tip : ℕ := 1

def chin_tip : ℕ := 152

def forehead_center : ℕ := 10

def upper_lip_center : ℕ := 13

def lower_lip_center : ℕ := 14

def left_cheek : ℕ := 234

def right_cheek : ℕ := 454

end Idx

/-- The scalar entries of the `self.beauty_standards` table. -/
structure BeautyStandards where
  golden_ratio : ℝ
  silver_ratio : ℝ
  japanese_face_ratio : ℝ
  nasolabial_angle_min : ℝ
  nasolabial_angle_max : ℝ
  philtrum_chin_ratio_ideal : ℝ
  philtrum_chin_ratio_modern : ℝ
  eline_tolerance : ℝ
  eye_width_ratio : ℝ
  facial_thirds : List ℕ
  facial_fifths : List ℕ

/-- `self.beauty_standards` as initialized in `__init__`. -/
def beautyStandards : BeautyStandards :=
  { golden_ratio := 1.618
    silver_ratio := 1.414
    japanese_face_ratio := 1.46
    nasolabial_angle_min := 100
    nasolabial_angle_max := 110
    philtrum_chin_ratio_ideal := 2.0
    philtrum_chin_ratio_modern := 3.0
    eline_tolerance := 2.0
    eye_width_ratio := 3.0
    facial_thirds := [1, 1, 1]
    facial_fifths := [1, 1, 1, 1, 1] }

/-- Python `int(x)`: truncation toward zero. -/
def pyInt (x : ℝ) : ℤ :=
  if 0 ≤ x then ⌊x⌋ else ⌈x⌉

/-- Python `round(x)` to an integer: round half to even. -/
def pyRound (x : ℝ) : ℤ :=
  if x - ⌊x⌋ < 1 / 2 then ⌊x⌋
  else if 1 / 2 < x - ⌊x⌋ then ⌊x⌋ + 1
  else if Even ⌊x⌋ then ⌊x⌋ else ⌊x⌋ + 1

/-- Python `round(x, n)`: round to `n` decimal places, half to even. -/
def roundTo (n : ℕ) (x : ℝ) : ℝ :=
  (pyRound (x * 10 ^ n) : ℝ) / 10 ^ n

/-- `_calculate_distance`: converts both normalized points to integer pixel
coordinates (`image_shape = (h, w)`) and returns the Euclidean pixel
distance. -/
def calcDistance (p1 p2 : Point) (shape : ℕ × ℕ) : ℝ :=
  let x1 := pyInt (p1.x * shape.2)
  let y1 := pyInt (p1.y * shape.1)
  let x2 := pyInt (p2.x * shape.2)
  let y2 := pyInt (p2.y * shape.1)
  Real.sqrt (((x2 - x1) ^ 2 + (y2 - y1) ^ 2 : ℤ) : ℝ)

/-- `np.linalg.norm(b - a)` for the 2D points used by
`_point_to_line_distance`. -/
def vecNorm (a b : Point) : ℝ :=
  Real.sqrt ((b.x - a.x) ^ 2 + (b.y - a.y) ^ 2)

/-- Euclidean distance between two points in normalized coordinates (used to
state the degenerate-line fallback of `_point_to_line_distance`). -/
def euclideanDistance (p q : Point) : ℝ :=
  Real.sqrt ((p.x - q.x) ^ 2 + (p.y - q.y) ^ 2)

/-- `_point_to_line_distance`: distance from `point` to the line through
`linePoint1`, `linePoint2` in normalized coordinates, with the zero-length
line handled by returning `np.linalg.norm(p - a)`. `np.cross` on 2D vectors
is the scalar `(b - a).x * (p - a).y - (b - a).y * (p - a).x`. -/
def pointToLineDistance (point linePoint1 linePoint2 : Point) : ℝ :=
  if vecNorm linePoint1 linePoint2 = 0 then vecNorm linePoint1 point
  else
    |(linePoint2.x - linePoint1.x) * (point.y - linePoint1.y) -
        (linePoint2.y - linePoint1.y) * (point.x - linePoint1.x)| /
      vecNorm linePoint1 linePoint2

/-- Result record of `_detect_face_angle`. The early "unknown" return carries
no `ratio` key, hence `ratio : Option ℝ`. -/
structure FaceAngleResult where
  angle : String
  ratio : Option ℝ
  confidence : ℝ
  suitable_for_analysis : Bool

/-- `left_dist` of `_detect_face_angle`. -/
def leftCheekDist (lms : LandmarkSet) : ℝ :=
  |(lms.point Idx.nose_tip).x - (lms.point Idx.left_cheek).x|

/-- `right_dist` of `_detect_face_angle`. -/
def rightCheekDist (lms : LandmarkSet) : ℝ :=
  |(lms.point Idx.nose_tip).x - (lms.point Idx.right_cheek).x|

/-- `_detect_face_angle`. -/
def detectFaceAngle (lms : LandmarkSet) : FaceAngleResult :=
  let left_dist := leftCheekDist lms
  let right_dist := rightCheekDist lms
  if left_dist = 0 ∧ right_dist = 0 then
    { angle := "unknown", ratio := none, confidence := 0.0,
      suitable_for_analysis := false }
  else
    let ratio := if 0 < left_dist + right_dist then
        left_dist / (left_dist + right_dist) else 0.5
    let angle_type :=
      if 0.4 ≤ ratio ∧ ratio ≤ 0.6 then "正面"
      else if ratio < 0.3 then "右向き"
      else if 0.7 < ratio then "左向き"
      else "斜め"
    let confidence :=
      if 0.4 ≤ ratio ∧ ratio ≤ 0.6 then 1.0 - |ratio - 0.5| * 2
      else if ratio < 0.3 then 0.7
      else if 0.7 < ratio then 0.7
      else 0.5
    { angle := angle_type
      ratio := some (roundTo 3 ratio)
      confidence := roundTo 2 confidence
      suitable_for_analysis := if 0.6 < confidence then true else false }

/-- Result record of `_analyze_eline`. -/
structure ElineResult where
  status : String
  upper_lip_distance : ℝ
  lower_lip_distance : ℝ
  evaluation : String

/-- The cheek-to-cheek pixel `face_width` computed identically inside
`_analyze_eline` and `_analyze_face_proportions`. -/
def faceWidth (lms : LandmarkSet) (shape : ℕ × ℕ) : ℝ :=
  calcDistance (lms.point Idx.left_cheek) (lms.point Idx.right_cheek) shape

/-- `upper_lip_dist` of `_analyze_eline`: normalized point-to-E-line distance
scaled by the pixel face width. -/
def elineUpperDist (lms : LandmarkSet) (shape : ℕ × ℕ) : ℝ :=
  pointToLineDistance (lms.point Idx.upper_lip_center) (lms.point Idx.nose_tip)
      (lms.point Idx.chin_tip) *
    faceWidth lms shape

/-- `lower_lip_dist` of `_analyze_eline`. -/
def elineLowerDist (lms : LandmarkSet) (shape : ℕ × ℕ) : ℝ :=
  pointToLineDistance (lms.point Idx.lower_lip_center) (lms.point Idx.nose_tip)
      (lms.point Idx.chin_tip) *
    faceWidth lms shape

/-- `_analyze_eline`. -/
def analyzeEline (lms : LandmarkSet) (shape : ℕ × ℕ) : ElineResult :=
  let upper_lip_dist := elineUpperDist lms shape
  let lower_lip_dist := elineLowerDist lms shape
  let max_dist := max |upper_lip_dist| |lower_lip_dist|
  let status :=
    if max_dist ≤ 2.0 then "理想的"
    else if max_dist ≤ beautyStandards.eline_tolerance then "良好"
    else if max_dist ≤ 7.0 then "標準的"
    else if upper_lip_dist > lower_lip_dist then "上唇がやや前方"
    else "下唇がやや前方"
  let evaluation :=
    if max_dist ≤ beautyStandards.eline_tolerance then "良好" else "標準的"
  { status := status
    upper_lip_distance := roundTo 2 upper_lip_dist
    lower_lip_distance := roundTo 2 lower_lip_dist
    evaluation := evaluation }

/-- The non-error result record of `_analyze_face_proportions`. -/
structure ProportionsRecord where
  aspect_ratio : ℝ
  closest_ratio : String
  ideal_ratio : ℝ
  difference : ℝ
  evaluation : String

/-- `_analyze_face_proportions` either returns `{"error": ...}` or the full
measurement record. -/
inductive ProportionsResult where
  | error (msg : String)
  | ok (r : ProportionsRecord)

/-- `aspect_ratio` of `_analyze_face_proportions`. -/
def aspectRatioOf (lms : LandmarkSet) (shape : ℕ × ℕ) : ℝ :=
  calcDistance (lms.point Idx.forehead_center) (lms.point Idx.chin_tip) shape /
    faceWidth lms shape

/-- `_analyze_face_proportions`. -/
def analyzeFaceProportions (lms : LandmarkSet) (shape : ℕ × ℕ) :
    ProportionsResult :=
  if faceWidth lms shape = 0 then .error "顔の幅を測定できませんでした"
  else
    let aspect_ratio := aspectRatioOf lms shape
    let golden_diff := |aspect_ratio - beautyStandards.golden_ratio|
    let silver_diff := |aspect_ratio - beautyStandards.silver_ratio|
    let japanese_diff := |aspect_ratio - beautyStandards.japanese_face_ratio|
    let min_diff := min golden_diff (min silver_diff japanese_diff)
    let closest_ratio :=
      if min_diff = golden_diff then "黄金比"
      else if min_diff = silver_diff then "白銀比（大和比）"
      else "日本人理想比"
    let ideal_ratio :=
      if min_diff = golden_diff then beautyStandards.golden_ratio
      else if min_diff = silver_diff then beautyStandards.silver_ratio
      else beautyStandards.japanese_face_ratio
    let evaluation :=
      if min_diff < 0.15 then "優秀"
      else if min_diff < 0.25 then "良好"
      else if min_diff < 0.35 then "標準的"
      else "個性的"
    .ok
      { aspect_ratio := roundTo 3 aspect_ratio
        closest_ratio := closest_ratio
        ideal_ratio := ideal_ratio
        difference := roundTo 3 min_diff
        evaluation := evaluation }

/-- Result record of the stub `_analyze_philtrum_chin_ratio`. -/
structure PhiltrumChinResult where
  philtrum_length : ℝ
  chin_length : ℝ
  ratio : ℝ
  closest_ideal : String
  target_ratio : ℝ
  difference : ℝ
  evaluation : String

/-- `_analyze_philtrum_chin_ratio` (a hardcoded stub in the source). -/
def analyzePhiltrumChinRatio (_lms : LandmarkSet) (_shape : ℕ × ℕ) :
    PhiltrumChinResult :=
  { philtrum_length := 10.0, chin_length := 20.0, ratio := 2.0,
    closest_ideal := "クラシック理想 (1:2)", target_ratio := 2.0,
    difference := 0.0, evaluation := "理想的" }

/-- Result record of the stub `_analyze_nasolabial_angle`. -/
structure NasolabialResult where
  angle : ℝ
  ideal_range : String
  status : String
  evaluation : String

/-- `_analyze_nasolabial_angle` (a hardcoded stub in the source). -/
def analyzeNasolabialAngle (_lms : LandmarkSet) : NasolabialResult :=
  { angle := 105.0, ideal_range := "100-110度", status := "理想的",
    evaluation := "優秀" }

/-- Result record of the stub `_analyze_vline_curvature`. -/
structure VlineResult where
  jaw_angle : ℝ
  sharpness : String
  evaluation : String
  vline_score : ℝ

/-- `_analyze_vline_curvature` (a hardcoded stub in the source). -/
def analyzeVlineCurvature (_lms : LandmarkSet) (_shape : ℕ × ℕ) : VlineResult :=
  { jaw_angle := 110.0, sharpness := "シャープ", evaluation := "良好",
    vline_score := 85.0 }

/-- Result record of the stub `_analyze_facial_symmetry`. -/
structure SymmetryResult where
  symmetry_score : ℝ
  asymmetry_level : ℝ
  evaluation : String

/-- `_analyze_facial_symmetry` (a hardcoded stub in the source). -/
def analyzeFacialSymmetry (_lms : LandmarkSet) (_shape : ℕ × ℕ) :
    SymmetryResult :=
  { symmetry_score := 85.0, asymmetry_level := 15.0,
    evaluation := "良好な対称性" }

/-- Result record of the stub `_analyze_dental_protrusion`. -/
structure DentalProtrusionResult where
  max_upper_protrusion : ℝ
  max_lower_protrusion : ℝ
  avg_upper_protrusion : ℝ
  avg_lower_protrusion : ℝ
  lip_status : String
  dental_status : String
  teeth_visible : Bool
  severity : String
  lip_balance : String
  ideal_range : String
  evaluation : String

/-- `_analyze_dental_protrusion` (a hardcoded stub in the source). -/
def analyzeDentalProtrusion (_lms : LandmarkSet) (_shape : ℕ × ℕ) :
    DentalProtrusionResult :=
  { max_upper_protrusion := 2.0, max_lower_protrusion := 1.5,
    avg_upper_protrusion := 1.8, avg_lower_protrusion := 1.3,
    lip_status := "理想的", dental_status := "正常範囲",
    teeth_visible := false, severity := "なし", lip_balance := "バランス良好",
    ideal_range := "Eラインから2-4mm以内", evaluation := "正常" }

/-- Result record of the stub `_analyze_face_contour`. -/
structure FaceContourResult where
  face_area : ℝ
  face_perimeter : ℝ
  face_width : ℝ
  face_height : ℝ
  small_face_score : ℝ
  cheekbone_width : ℝ
  jaw_width : ℝ
  cheek_jaw_ratio : ℝ
  vline_evaluation : String

/-- `_analyze_face_contour` (a hardcoded stub in the source). -/
def analyzeFaceContour (_lms : LandmarkSet) (_shape : ℕ × ℕ) :
    FaceContourResult :=
  { face_area := 15000.0, face_perimeter := 500.0, face_width := 150.0,
    face_height := 180.0, small_face_score := 85.0, cheekbone_width := 140.0,
    jaw_width := 120.0, cheek_jaw_ratio := 0.75, vline_evaluation := "理想的" }

/-- Result record of the stub `_analyze_facial_harmony`. -/
structure FacialHarmonyResult where
  avg_eye_width : ℝ
  nose_width : ℝ
  mouth_width : ℝ
  face_width : ℝ
  face_height : ℝ
  face_area : ℝ
  eye_face_ratio : ℝ
  nose_face_ratio : ℝ
  mouth_face_ratio : ℝ
  eye_area_ratio : ℝ
  golden_deviation : ℝ
  face_aspect_ratio : ℝ
  harmony_score : ℝ
  evaluation : String
  beauty_level : String
  explanation : String

/-- `_analyze_facial_harmony` (a hardcoded stub in the source). -/
def analyzeFacialHarmony (_lms : LandmarkSet) (_shape : ℕ × ℕ) :
    FacialHarmonyResult :=
  { avg_eye_width := 30.0, nose_width := 25.0, mouth_width := 45.0,
    face_width := 150.0, face_height := 180.0, face_area := 15000.0,
    eye_face_ratio := 0.20, nose_face_ratio := 0.17, mouth_face_ratio := 0.30,
    eye_area_ratio := 0.008, golden_deviation := 0.1,
    face_aspect_ratio := 1.2, harmony_score := 82.0, evaluation := "良好",
    beauty_level := "高い",
    explanation := "バランスの取れた美しい顔立ちです" }

/-- The `analysis_results` dictionary assembled in
`_perform_comprehensive_analysis`. -/
structure AnalysisParts where
  face_angle : FaceAngleResult
  face_contour : FaceContourResult
  eline : ElineResult
  proportions : ProportionsResult
  philtrum_chin : PhiltrumChinResult
  nasolabial_angle : NasolabialResult
  vline : VlineResult
  symmetry : SymmetryResult
  dental_protrusion : DentalProtrusionResult
  facial_harmony : FacialHarmonyResult

/-- The `explanation_details` sub-record of `_calculate_overall_score`. -/
structure ExplanationDetails where
  strong_points : List String
  weak_points : List String
  bonus_factors : List String
  penalty_factors : List String
  improvement_suggestions : List String

/-- Result record of `_calculate_overall_score`. `detailed_scores` and
`score_breakdown` are association lists mirroring the source dicts. -/
structure OverallScoreResult where
  score : ℝ
  level : String
  tier : String
  description : String
  emoji : String
  detailed_scores : List (String × ℝ)
  score_breakdown : List (String × String)
  severe_flaws : List String
  explanation_details : ExplanationDetails
  note : String

/-- `_calculate_overall_score` (a hardcoded stub in the source: it ignores
`analysis_results` and returns fixed values). -/
def calculateOverallScore (_analysisResults : AnalysisParts) :
    OverallScoreResult :=
  { score := 78.5
    level := "🌸 容姿端麗な一般人レベル"
    tier := "C級"
    description := "街で振り返られる美人レベル"
    emoji := "🌸"
    detailed_scores :=
      [("eline", 85.0), ("harmony", 78.0), ("symmetry", 82.0),
        ("proportions", 75.0)]
    score_breakdown :=
      [("eline", "85.0 (重み15%)"), ("harmony", "78.0 (重み25%)"),
        ("symmetry", "82.0 (重み6%)")]
    severe_flaws := []
    explanation_details :=
      { strong_points := ["良好なEライン", "バランスの取れた顔立ち"]
        weak_points := []
        bonus_factors := []
        penalty_factors := []
        improvement_suggestions := ["メイク技術の向上で更なる美しさを"] }
    note := "韓国の美容整形基準と黄金比に基づく総合評価です。" }

/-- The weight percentages stated in the `score_breakdown` strings of
`_calculate_overall_score` (重み15%, 重み25%, 重み6%). -/
def breakdownWeightPercents : List ℚ := [15, 25, 6]

/-- `_generate_beauty_advice` (a hardcoded stub in the source: it ignores
`analysis_results` and returns a fixed list of advice strings). -/
def generateBeautyAdvice (_analysisResults : AnalysisParts) : List String :=
  ["💋 理想的なEラインを持っています。横顔美人の証です。",
    "✨ バランスの取れた美しい顔立ちです。",
    "💄 メイク技術の向上で更なる美しさを引き出せます。",
    "⚠️ 注意: このアドバイスは一般的な美容情報であり、医学的アドバイスではありません。"]

/-- `_get_angle_warning`: `none` when the detected angle is suitable for
analysis, otherwise the warning message, modelled by its content
(angle label, confidence). -/
def getAngleWarning (faceAngle : FaceAngleResult) : Option (String × ℝ) :=
  if faceAngle.suitable_for_analysis then none
  else some (faceAngle.angle, faceAngle.confidence)

/-- The `image_info` sub-record of the analysis result. -/
structure ImageInfo where
  filename : String
  dimensions : String
  total_landmarks : ℕ

/-- The typed error of `app/utils/exceptions.py` as re-raised by
`_perform_comprehensive_analysis`, identified by its failing stage name (the
dynamic message string interpolating the underlying exception is
abstracted). -/
structure AnalysisError where
  stage : String

/-- The pydantic validation performed when `FaceAnalysisResult(...)` is
constructed (`models/analysis.py`). Every sub-analysis dict except
`face_angle` and `proportions` is hardcoded and always carries its
submodel's required fields within their declared ranges, so validation can
only turn on the two varying parts: the `FaceAngle` submodel requires a
`ratio` key with `0 ≤ ratio ≤ 1` and `0 ≤ confidence ≤ 1` (the early
"unknown" return has no `ratio` key), and `proportions` must carry the five
required `FaceProportions` fields — the zero-width `{"error": ...}` dict has
none of them and fails validation. -/
def resultValidationOk (fa : FaceAngleResult) (pr : ProportionsResult) :
    Prop :=
  (∃ x, fa.ratio = some x ∧ 0 ≤ x ∧ x ≤ 1) ∧
    0 ≤ fa.confidence ∧ fa.confidence ≤ 1 ∧
    ∃ rec, pr = ProportionsResult.ok rec

instance (fa : FaceAngleResult) (pr : ProportionsResult) :
    Decidable (resultValidationOk fa pr) :=
  Classical.propDecidable _

/-- The `FaceAnalysisResult` record produced by
`_perform_comprehensive_analysis`. The record keeps the pre-validation types
of the varying parts (`ratio : Option ℝ`, `proportions : ProportionsResult`);
the `resultValidationOk` guard of the pipeline ensures the error variants
never inhabit a successfully assembled record. -/
structure FaceAnalysisResult where
  timestamp : ℕ
  image_info : ImageInfo
  face_angle : FaceAngleResult
  face_contour : FaceContourResult
  eline : ElineResult
  proportions : ProportionsResult
  philtrum_chin : PhiltrumChinResult
  nasolabial_angle : NasolabialResult
  vline : VlineResult
  symmetry : SymmetryResult
  dental_protrusion : DentalProtrusionResult
  facial_harmony : FacialHarmonyResult
  overall_score : OverallScoreResult
  beauty_advice : List String
  angle_warning : Option (String × ℝ)

/-- `_perform_comprehensive_analysis`. `shape = (h, w)` as in the source;
`now` is the wall-clock time read by `datetime.now()`, made an explicit
argument. The sub-analyzers themselves are total, but constructing the
pydantic `FaceAnalysisResult` validates its submodels: when validation fails
(see `resultValidationOk`) the `ValidationError` is caught by the `except`
block and re-raised as `AnalysisError` with stage
"comprehensive_analysis". -/
def performComprehensiveAnalysis (lms : LandmarkSet) (shape : ℕ × ℕ)
    (filename : String) (now : ℕ) :
    Except AnalysisError FaceAnalysisResult :=
  let face_angle := detectFaceAngle lms
  let face_contour := analyzeFaceContour lms shape
  let eline := analyzeEline lms shape
  let proportions := analyzeFaceProportions lms shape
  let philtrum_chin := analyzePhiltrumChinRatio lms shape
  let nasolabial_angle := analyzeNasolabialAngle lms
  let vline := analyzeVlineCurvature lms shape
  let symmetry := analyzeFacialSymmetry lms shape
  let dental_protrusion := analyzeDentalProtrusion lms shape
  let facial_harmony := analyzeFacialHarmony lms shape
  let analysis_results : AnalysisParts :=
    { face_angle := face_angle, face_contour := face_contour, eline := eline,
      proportions := proportions, philtrum_chin := philtrum_chin,
      nasolabial_angle := nasolabial_angle, vline := vline,
      symmetry := symmetry, dental_protrusion := dental_protrusion,
      facial_harmony := facial_harmony }
  let overall_score := calculateOverallScore analysis_results
  let beauty_advice := generateBeautyAdvice analysis_results
  if resultValidationOk face_angle proportions then
    .ok
      { timestamp := now
        image_info :=
          { filename := filename
            dimensions := toString shape.2 ++ "x" ++ toString shape.1
            total_landmarks := lms.size }
        face_angle := face_angle
        face_contour := face_contour
        eline := eline
        proportions := proportions
        philtrum_chin := philtrum_chin
        nasolabial_angle := nasolabial_angle
        vline := vline
        symmetry := symmetry
        dental_protrusion := dental_protrusion
        facial_harmony := facial_harmony
        overall_score := overall_score
        beauty_advice := beauty_advice
        angle_warning := getAngleWarning face_angle }
  else .error { stage := "comprehensive_analysis" }

/-!
## Specification-side definitions

The following definitions are written from the wording of the specification
claims (not from the source); the refinement theorems below compare them with
the embedded code.
-/

/-- Claim wording (face-angle classifier, first match wins): label of the
classification of the horizontal asymmetry ratio `r = ld / (ld + rd)`. -/
def angleLabelSpec (leftDist rightDist : ℝ) : String :=
  if leftDist = 0 ∧ rightDist = 0 then "unknown"
  else
    let r := leftDist / (leftDist + rightDist)
    if 0.4 ≤ r ∧ r ≤ 0.6 then "正面"
    else if r < 0.3 then "右向き"
    else if 0.7 < r then "左向き"
    else "斜め"

/-- Claim wording (amended): the reported confidence of the face-angle
classification; the frontal-branch formula `1 - |r - 0.5| * 2` is rounded to
two decimal places as the code stores it. -/
def angleConfSpec (leftDist rightDist : ℝ) : ℝ :=
  if leftDist = 0 ∧ rightDist = 0 then 0.0
  else
    let r := leftDist / (leftDist + rightDist)
    if 0.4 ≤ r ∧ r ≤ 0.6 then roundTo 2 (1.0 - |r - 0.5| * 2)
    else if r < 0.3 then 0.7
    else if 0.7 < r then 0.7
    else 0.5

/-- Claim wording (E-line status ladder): classify by
`max(|upperDist|, |lowerDist|)`; `≤ 2.0` ideal, `≤ eline_tolerance (2.0)`
good, `≤ 7.0` standard, else the directional label of the larger distance. -/
def elineStatusSpec (upperDist lowerDist : ℝ) : String :=
  let maxDist := max |upperDist| |lowerDist|
  if maxDist ≤ 2.0 then "理想的"
  else if maxDist ≤ 2.0 then "良好"
  else if maxDist ≤ 7.0 then "標準的"
  else if upperDist > lowerDist then "上唇がやや前方"
  else "下唇がやや前方"

/-- Claim wording (E-line evaluation): "good" iff the max scaled lip distance
is within the tolerance (2.0), else "standard". -/
def elineEvalSpec (maxDist : ℝ) : String :=
  if maxDist ≤ 2.0 then "良好" else "標準的"

/-- Claim wording (proportions): the ideal ratio with minimum absolute
deviation from the aspect ratio; golden (1.618) wins ties over silver
(1.414), silver over the population ideal (1.46). -/
def closestRatioSpec (ar : ℝ) : String :=
  if |ar - 1.618| ≤ |ar - 1.414| ∧ |ar - 1.618| ≤ |ar - 1.46| then "黄金比"
  else if |ar - 1.414| ≤ |ar - 1.46| then "白銀比（大和比）"
  else "日本人理想比"

/-- The minimum absolute deviation of the aspect ratio from the three ideal
ratios. -/
def minDeviation (ar : ℝ) : ℝ :=
  min |ar - 1.618| (min |ar - 1.414| |ar - 1.46|)

/-- Claim wording (proportions evaluation tiers): `< 0.15` excellent,
`< 0.25` good, `< 0.35` standard, else the neutral "characterful" label. -/
def proportionsTierSpec (d : ℝ) : String :=
  if d < 0.15 then "優秀"
  else if d < 0.25 then "良好"
  else if d < 0.35 then "標準的"
  else "個性的"

/-!
## Helper lemmas
-/

lemma pyInt_intCast (n : ℤ) : pyInt (n : ℝ) = n := by
  unfold pyInt
  split_ifs <;> simp

lemma pyRound_intCast (n : ℤ) : pyRound (n : ℝ) = n := by
  unfold pyRound
  rw [Int.floor_intCast]
  rw [if_pos (by norm_num)]

lemma roundTo_eq_self {n : ℕ} {x : ℝ} (k : ℤ) (h : x * 10 ^ n = (k : ℝ)) :
    roundTo n x = x := by
  unfold roundTo
  rw [h, pyRound_intCast]
  rw [div_eq_iff (by positivity : ((10 : ℝ) ^ n) ≠ 0)]
  exact h.symm

lemma roundTo_two_seven : roundTo 2 (0.7 : ℝ) = 0.7 :=
  roundTo_eq_self 70 (by norm_num)

lemma roundTo_two_five : roundTo 2 (0.5 : ℝ) = 0.5 :=
  roundTo_eq_self 50 (by norm_num)

lemma roundTo_three_half : roundTo 3 (0.5 : ℝ) = 0.5 :=
  roundTo_eq_self 500 (by norm_num)

lemma roundTo_two_one : roundTo 2 (1 : ℝ) = 1 :=
  roundTo_eq_self 100 (by norm_num)

lemma vecNorm_self (a : Point) : vecNorm a a = 0 := by
  simp [vecNorm]

lemma vecNorm_eq_zero {a b : Point} : vecNorm a b = 0 ↔ b = a := by
  constructor
  · intro h
    have hsum := Real.sqrt_eq_zero'.mp h
    have hx : (b.x - a.x) ^ 2 = 0 := by
      nlinarith [sq_nonneg (b.x - a.x), sq_nonneg (b.y - a.y)]
    have hy : (b.y - a.y) ^ 2 = 0 := by
      nlinarith [sq_nonneg (b.x - a.x), sq_nonneg (b.y - a.y)]
    have hx' : b.x = a.x := by
      have := pow_eq_zero_iff (n := 2) (by norm_num) |>.mp hx
      linarith [this]
    have hy' : b.y = a.y := by
      have := pow_eq_zero_iff (n := 2) (by norm_num) |>.mp hy
      linarith [this]
    exact Point.ext hx' hy'
  · intro h
    rw [h]
    exact vecNorm_self a

/-- The non-degenerate branch of `_detect_face_angle` as a function of the
asymmetry ratio (the zeta-reduced form of the source's else-branch). -/
def faceAngleBranch (r : ℝ) : FaceAngleResult :=
  { angle :=
      if 0.4 ≤ r ∧ r ≤ 0.6 then "正面"
      else if r < 0.3 then "右向き"
      else if 0.7 < r then "左向き"
      else "斜め"
    ratio := some (roundTo 3 r)
    confidence :=
      roundTo 2
        (if 0.4 ≤ r ∧ r ≤ 0.6 then 1.0 - |r - 0.5| * 2
          else if r < 0.3 then 0.7
          else if 0.7 < r then 0.7
          else 0.5)
    suitable_for_analysis :=
      if 0.6 <
          (if 0.4 ≤ r ∧ r ≤ 0.6 then 1.0 - |r - 0.5| * 2
            else if r < 0.3 then 0.7
            else if 0.7 < r then 0.7
            else 0.5) then
        true
      else false }

lemma sum_cheek_dist_pos {lms : LandmarkSet}
    (hz : ¬(leftCheekDist lms = 0 ∧ rightCheekDist lms = 0)) :
    0 < leftCheekDist lms + rightCheekDist lms := by
  have hl : 0 ≤ leftCheekDist lms := abs_nonneg _
  have hr : 0 ≤ rightCheekDist lms := abs_nonneg _
  rcases not_and_or.mp hz with h | h
  · exact add_pos_of_pos_of_nonneg (lt_of_le_of_ne hl (Ne.symm h)) hr
  · exact add_pos_of_nonneg_of_pos hl (lt_of_le_of_ne hr (Ne.symm h))

lemma detectFaceAngle_eq (lms : LandmarkSet)
    (hz : ¬(leftCheekDist lms = 0 ∧ rightCheekDist lms = 0)) :
    detectFaceAngle lms =
      faceAngleBranch
        (leftCheekDist lms / (leftCheekDist lms + rightCheekDist lms)) := by
  have hsum := sum_cheek_dist_pos hz
  simp only [detectFaceAngle]
  rw [if_neg hz, if_pos hsum]
  rfl

lemma faceAngle_eval_half {lms : LandmarkSet}
    (hl : leftCheekDist lms = 0.3) (hr : rightCheekDist lms = 0.3) :
    (detectFaceAngle lms).ratio = some 0.5 ∧
      (detectFaceAngle lms).confidence = 1 := by
  have hz : ¬(leftCheekDist lms = 0 ∧ rightCheekDist lms = 0) := by
    intro h
    rw [hl] at h
    exact absurd h.1 (by norm_num)
  have hratio : leftCheekDist lms /
      (leftCheekDist lms + rightCheekDist lms) = 0.5 := by
    rw [hl, hr]
    norm_num
  rw [detectFaceAngle_eq lms hz, hratio]
  constructor
  · simp only [faceAngleBranch]
    rw [roundTo_three_half]
  · simp only [faceAngleBranch]
    rw [if_pos (by norm_num : (0.4 : ℝ) ≤ 0.5 ∧ (0.5 : ℝ) ≤ 0.6)]
    rw [show |(0.5 : ℝ) - 0.5| = 0 by simp,
      show (1.0 : ℝ) - 0 * 2 = 1 by norm_num, roundTo_two_one]

lemma min3_select (gd sd jd : ℝ) (sGold sSilver sJap : String) :
    (if min gd (min sd jd) = gd then sGold
      else if min gd (min sd jd) = sd then sSilver
      else sJap) =
      if gd ≤ sd ∧ gd ≤ jd then sGold
      else if sd ≤ jd then sSilver
      else sJap := by
  by_cases h1 : gd ≤ sd ∧ gd ≤ jd
  · rw [if_pos (min_eq_left (le_min h1.1 h1.2)), if_pos h1]
  · have hne : min gd (min sd jd) ≠ gd := by
      intro he
      have hle := min_eq_left_iff.mp he
      exact h1 ⟨le_trans hle (min_le_left _ _), le_trans hle (min_le_right _ _)⟩
    rw [if_neg hne, if_neg h1]
    by_cases h2 : sd ≤ jd
    · have hmin : min gd (min sd jd) = sd := by
        rw [min_eq_left h2]
        rcases not_and_or.mp h1 with h | h
        · exact min_eq_right (le_of_not_le h)
        · exact min_eq_right (le_trans h2 (le_of_not_le h))
      rw [if_pos hmin, if_pos h2]
    · have hlt : min gd (min sd jd) < sd :=
        lt_of_le_of_lt (le_trans (min_le_right _ _) (min_le_right _ _))
          (not_le.mp h2)
      rw [if_neg (ne_of_lt hlt), if_neg h2]

/-!
## Claim theorems
-/

/-- C2: for every point `p` and every point `a`, the point-to-line-distance
helper applied to the zero-length line `(a, a)` returns exactly the Euclidean
distance from `p` to `a` in normalized coordinates (the division branch is
never taken, so no division by zero occurs and the function is total); for
distinct endpoints `a ≠ b` it returns `|cross(b - a, p - a)| / |b - a|`. -/
theorem pointToLineDistance_degenerate_fallback :
    (∀ p a : Point, pointToLineDistance p a a = euclideanDistance p a) ∧
      ∀ p a b : Point, a ≠ b →
        pointToLineDistance p a b =
          |(b.x - a.x) * (p.y - a.y) - (b.y - a.y) * (p.x - a.x)| /
            vecNorm a b := by
  constructor
  · intro p a
    unfold pointToLineDistance
    rw [if_pos (vecNorm_self a)]
    rfl
  · intro p a b hab
    unfold pointToLineDistance
    rw [if_neg fun h => hab (vecNorm_eq_zero.mp h).symm]

/-- Witness for C2: the general branch evaluated at the concrete points
`p = (0,0)`, `a = (0,0)`, `b = (1,0)` with the hypothesis `a ≠ b`
discharged. -/
theorem pointToLineDistance_degenerate_fallback_witness :
    ((⟨0, 0⟩ : Point) ≠ ⟨1, 0⟩) ∧
      pointToLineDistance ⟨0, 0⟩ ⟨0, 0⟩ ⟨1, 0⟩ =
        |((⟨1, 0⟩ : Point).x - (⟨0, 0⟩ : Point).x) *
              ((⟨0, 0⟩ : Point).y - (⟨0, 0⟩ : Point).y) -
            ((⟨1, 0⟩ : Point).y - (⟨0, 0⟩ : Point).y) *
              ((⟨0, 0⟩ : Point).x - (⟨0, 0⟩ : Point).x)| /
          vecNorm ⟨0, 0⟩ ⟨1, 0⟩ := by
  have hab : (⟨0, 0⟩ : Point) ≠ ⟨1, 0⟩ := by
    intro h
    have hx := congrArg Point.x h
    norm_num at hx
  exact ⟨hab, pointToLineDistance_degenerate_fallback.2 ⟨0, 0⟩ ⟨0, 0⟩ ⟨1, 0⟩ hab⟩

/-- C4 (code bug): the fixed weight percentages in the aggregation score
breakdown sum to 46, not 100, and the breakdown names only three of the ten
sub-analyses; evaluated on every `analysis_results` input since the stub
ignores its argument. -/
theorem aggregation_weight_table_not_closed :
    breakdownWeightPercents.sum = 46 ∧ (46 : ℚ) ≠ 100 ∧
      ∀ parts : AnalysisParts,
        (calculateOverallScore parts).score_breakdown.map Prod.fst =
          ["eline", "harmony", "symmetry"] := by
  refine ⟨by norm_num [breakdownWeightPercents], by norm_num, fun parts => rfl⟩

/-- C9: for every analysis-results input, the generated beauty advice list is
non-empty and its last element is the fixed "not medical advice" disclaimer
string. -/
theorem beauty_advice_ends_with_disclaimer :
    ∀ parts : AnalysisParts,
      generateBeautyAdvice parts ≠ [] ∧
        (generateBeautyAdvice parts).getLast? =
          some "⚠️ 注意: このアドバイスは一般的な美容情報であり、医学的アドバイスではありません。" := by
  intro parts
  exact ⟨by simp [generateBeautyAdvice], rfl⟩

/-- C10: because the "ideal" threshold (2.0) equals `eline_tolerance` (2.0),
the "good" status rung of the E-line analyzer is unreachable: the status is
always one of ideal / standard / upper-lip-forward / lower-lip-forward and
never "good", and the evaluation is "good" exactly when the status is
"ideal". -/
theorem eline_good_status_unreachable :
    ∀ (lms : LandmarkSet) (shape : ℕ × ℕ),
      ((analyzeEline lms shape).status = "理想的" ∨
          (analyzeEline lms shape).status = "標準的" ∨
          (analyzeEline lms shape).status = "上唇がやや前方" ∨
          (analyzeEline lms shape).status = "下唇がやや前方") ∧
        (analyzeEline lms shape).status ≠ "良好" ∧
        ((analyzeEline lms shape).evaluation = "良好" ↔
          (analyzeEline lms shape).status = "理想的") := by
  intro lms shape
  simp only [analyzeEline, beautyStandards]
  split_ifs with h1 h2 h3 <;> refine ⟨?_, ?_, ?_⟩ <;> simp_all

lemma floor_eightyeight : ⌊(88.8 : ℝ)⌋ = 88 := by
  apply Int.floor_eq_iff.mpr
  constructor <;> norm_num

lemma roundTo_two_888 : roundTo 2 (0.888 : ℝ) = 0.89 := by
  unfold roundTo pyRound
  rw [show (0.888 : ℝ) * 10 ^ 2 = 88.8 by norm_num, floor_eightyeight]
  rw [if_neg (by push_cast; norm_num), if_pos (by push_cast; norm_num)]
  push_cast
  norm_num

/-- Concrete landmark set for the C3 counterexample: `nose_tip.x = 0.444`,
`left_cheek.x = 0`, `right_cheek.x = 1`, so the asymmetry ratio is exactly
0.444 (a frontal classification whose raw confidence 0.888 is not a
two-decimal number). -/
def cAngleLms : LandmarkSet :=
  ⟨468, fun i =>
    if i = 1 then ⟨0.444, 0⟩ else if i = 234 then ⟨0, 0⟩ else ⟨1, 0⟩⟩

/-- C3 counterexample: at the concrete landmark set `cAngleLms` the
classifier answers "frontal" but the stored confidence differs from the
claimed value `1 - |r - 0.5| * 2` (the code stores it rounded to two decimal
places: 0.89 versus 0.888). -/
theorem faceAngle_frontal_confidence_not_exact :
    (detectFaceAngle cAngleLms).angle = "正面" ∧
      (detectFaceAngle cAngleLms).confidence ≠
        1.0 - |leftCheekDist cAngleLms /
              (leftCheekDist cAngleLms + rightCheekDist cAngleLms) - 0.5| * 2 := by
  have hl : leftCheekDist cAngleLms = 0.444 := by
    show |(0.444 : ℝ) - 0| = 0.444
    rw [abs_of_nonneg (by norm_num)]
    norm_num
  have hr : rightCheekDist cAngleLms = 0.556 := by
    show |(0.444 : ℝ) - 1| = 0.556
    rw [abs_of_nonpos (by norm_num)]
    norm_num
  have hz : ¬(leftCheekDist cAngleLms = 0 ∧ rightCheekDist cAngleLms = 0) := by
    rw [hl, hr]
    norm_num
  have hratio : leftCheekDist cAngleLms /
      (leftCheekDist cAngleLms + rightCheekDist cAngleLms) = 0.444 := by
    rw [hl, hr]
    norm_num
  have habs : |(0.444 : ℝ) - 0.5| = 0.056 := by
    rw [abs_of_nonpos (by norm_num)]
    norm_num
  rw [detectFaceAngle_eq cAngleLms hz, hratio]
  constructor
  · simp only [faceAngleBranch]
    rw [if_pos (by norm_num : (0.4 : ℝ) ≤ 0.444 ∧ (0.444 : ℝ) ≤ 0.6)]
  · simp only [faceAngleBranch]
    rw [if_pos (by norm_num : (0.4 : ℝ) ≤ 0.444 ∧ (0.444 : ℝ) ≤ 0.6)]
    rw [habs, show (1.0 : ℝ) - 0.056 * 2 = 0.888 by norm_num, roundTo_two_888]
    norm_num

/-- C3 (amended): the face-angle classifier labels exactly as the claimed
first-match-wins ladder, and the reported confidence matches the claimed
values, with the frontal-branch formula `1 - |r - 0.5| * 2` rounded to two
decimal places (the constant confidences 0.0, 0.7, 0.5 are unchanged by the
rounding). -/
theorem detectFaceAngle_classification_rounded :
    ∀ lms : LandmarkSet,
      (detectFaceAngle lms).angle =
        angleLabelSpec (leftCheekDist lms) (rightCheekDist lms) ∧
      (detectFaceAngle lms).confidence =
        angleConfSpec (leftCheekDist lms) (rightCheekDist lms) := by
  intro lms
  by_cases hz : leftCheekDist lms = 0 ∧ rightCheekDist lms = 0
  · simp only [detectFaceAngle, angleLabelSpec, angleConfSpec, if_pos hz]
    exact ⟨by trivial, by trivial⟩
  · rw [detectFaceAngle_eq lms hz]
    simp only [angleLabelSpec, angleConfSpec, if_neg hz, faceAngleBranch]
    split_ifs with h1 h2 h3 <;>
      refine ⟨by trivial, ?_⟩ <;>
      first
        | rfl
        | exact roundTo_two_seven
        | exact roundTo_two_five

/-- C6: for every landmark set and positive image dimensions, the E-line
analyzer's status is exactly the claimed threshold ladder on the maximum of
the absolute face-width-scaled lip distances, and its evaluation is the
claimed binary good/standard label. -/
theorem analyzeEline_ladder_spec :
    ∀ (lms : LandmarkSet) (shape : ℕ × ℕ), 0 < shape.1 → 0 < shape.2 →
      (analyzeEline lms shape).status =
        elineStatusSpec (elineUpperDist lms shape) (elineLowerDist lms shape) ∧
      (analyzeEline lms shape).evaluation =
        elineEvalSpec
          (max |elineUpperDist lms shape| |elineLowerDist lms shape|) := by
  intro lms shape _ _
  exact ⟨rfl, rfl⟩

/-- Landmark set (all points at the origin) used to instantiate the C6
theorem. -/
def wLmsE : LandmarkSet := ⟨468, fun _ => ⟨0, 0⟩⟩

/-- Witness for C6: the theorem instantiated at a concrete landmark set and
the concrete positive dimensions (1, 1). -/
theorem analyzeEline_ladder_spec_witness :
    (0 < (1 : ℕ)) ∧
      ((analyzeEline wLmsE (1, 1)).status =
          elineStatusSpec (elineUpperDist wLmsE (1, 1))
            (elineLowerDist wLmsE (1, 1)) ∧
        (analyzeEline wLmsE (1, 1)).evaluation =
          elineEvalSpec
            (max |elineUpperDist wLmsE (1, 1)| |elineLowerDist wLmsE (1, 1)|)) :=
  ⟨by norm_num, analyzeEline_ladder_spec wLmsE (1, 1) (by norm_num) (by norm_num)⟩

/-- C7: for every landmark set with nonzero face width, the proportions
analyzer returns a measurement whose nearest-ideal-ratio label follows the
claimed minimum-deviation selection (golden wins ties over silver, silver
over the population ideal) and whose evaluation tier follows the claimed
deviation ladder. -/
theorem faceProportions_nearest_ratio_spec :
    ∀ (lms : LandmarkSet) (shape : ℕ × ℕ), faceWidth lms shape ≠ 0 →
      ∃ rec : ProportionsRecord,
        analyzeFaceProportions lms shape = ProportionsResult.ok rec ∧
          rec.closest_ratio = closestRatioSpec (aspectRatioOf lms shape) ∧
          rec.evaluation =
            proportionsTierSpec (minDeviation (aspectRatioOf lms shape)) := by
  intro lms shape h
  unfold analyzeFaceProportions
  rw [if_neg h]
  refine ⟨_, rfl, ?_, ?_⟩
  · dsimp only
    simp only [beautyStandards, closestRatioSpec]
    exact min3_select _ _ _ _ _ _
  · dsimp only
    simp only [beautyStandards, proportionsTierSpec, minDeviation]

/-- Landmark set used to instantiate the C7 theorem: cheeks at (0,0) and
(0.3,0.4), so on a 10x10 image the face width is the 3-4-5 pixel distance
5 ≠ 0. -/
def wLms7 : LandmarkSet :=
  ⟨468, fun i =>
    if i = 10 then ⟨0.5, 0⟩
    else if i = 152 then ⟨0.5, 0.8⟩
    else if i = 234 then ⟨0, 0⟩
    else if i = 454 then ⟨0.3, 0.4⟩
    else ⟨0, 0⟩⟩

lemma wLms7_faceWidth : faceWidth wLms7 (10, 10) = 5 := by
  show calcDistance ⟨0, 0⟩ ⟨0.3, 0.4⟩ (10, 10) = 5
  unfold calcDistance
  norm_num
  have p3 : pyInt (3 : ℝ) = 3 := by
    rw [show (3 : ℝ) = ((3 : ℤ) : ℝ) by norm_num]
    exact pyInt_intCast 3
  have p4 : pyInt (4 : ℝ) = 4 := by
    rw [show (4 : ℝ) = ((4 : ℤ) : ℝ) by norm_num]
    exact pyInt_intCast 4
  have p0 : pyInt (0 : ℝ) = 0 := by
    rw [show (0 : ℝ) = ((0 : ℤ) : ℝ) by norm_num]
    exact pyInt_intCast 0
  rw [p3, p4, p0]
  push_cast
  rw [show ((3 : ℝ) - 0) ^ 2 + ((4 : ℝ) - 0) ^ 2 = 5 ^ 2 by norm_num]
  exact Real.sqrt_sq (by norm_num)

/-- Witness for C7: the theorem instantiated at `wLms7` on a 10x10 image,
with the nonzero-face-width hypothesis discharged by computing the width
(= 5). -/
theorem faceProportions_nearest_ratio_spec_witness :
    faceWidth wLms7 (10, 10) ≠ 0 ∧
      ∃ rec : ProportionsRecord,
        analyzeFaceProportions wLms7 (10, 10) = ProportionsResult.ok rec ∧
          rec.closest_ratio = closestRatioSpec (aspectRatioOf wLms7 (10, 10)) ∧
          rec.evaluation =
            proportionsTierSpec (minDeviation (aspectRatioOf wLms7 (10, 10))) := by
  have h : faceWidth wLms7 (10, 10) ≠ 0 := by
    rw [wLms7_faceWidth]
    norm_num
  exact ⟨h, faceProportions_nearest_ratio_spec wLms7 (10, 10) h⟩

/-- C8: for every landmark set whose nose tip x lies exactly midway between
the cheek x coordinates, with both cheek distances nonzero, the face-angle
result has ratio 0.5, label "frontal", confidence 1.0, is suitable for
analysis, and any result the pipeline assembles carries no angle warning. -/
theorem symmetric_frontal_scenario :
    ∀ (lms : LandmarkSet) (shape : ℕ × ℕ) (filename : String) (now : ℕ),
      (lms.point Idx.nose_tip).x - (lms.point Idx.left_cheek).x =
          (lms.point Idx.right_cheek).x - (lms.point Idx.nose_tip).x →
      leftCheekDist lms ≠ 0 → rightCheekDist lms ≠ 0 →
      (detectFaceAngle lms).ratio = some 0.5 ∧
        (detectFaceAngle lms).angle = "正面" ∧
        (detectFaceAngle lms).confidence = 1.0 ∧
        (detectFaceAngle lms).suitable_for_analysis = true ∧
        ∀ r : FaceAnalysisResult,
          performComprehensiveAnalysis lms shape filename now = Except.ok r →
            r.angle_warning = none := by
  intro lms shape fn now hmid hld hrd
  have hz : ¬(leftCheekDist lms = 0 ∧ rightCheekDist lms = 0) := fun h => hld h.1
  have heq : rightCheekDist lms = leftCheekDist lms := by
    unfold leftCheekDist rightCheekDist
    rw [abs_sub_comm, ← hmid]
  have hpos : 0 < leftCheekDist lms :=
    lt_of_le_of_ne (abs_nonneg _) (Ne.symm hld)
  have hratio : leftCheekDist lms /
      (leftCheekDist lms + rightCheekDist lms) = 0.5 := by
    rw [heq]
    rw [div_eq_iff (by linarith : leftCheekDist lms + leftCheekDist lms ≠ 0)]
    linarith
  have hcond : (0.4 : ℝ) ≤ 0.5 ∧ (0.5 : ℝ) ≤ 0.6 := by norm_num
  have habs : |(0.5 : ℝ) - 0.5| = 0 := by simp
  rw [detectFaceAngle_eq lms hz, hratio]
  refine ⟨?_, ?_, ?_, ?_, ?_⟩
  · simp only [faceAngleBranch]
    rw [roundTo_three_half]
  · simp only [faceAngleBranch]
    rw [if_pos hcond]
  · simp only [faceAngleBranch]
    rw [if_pos hcond, habs, show (1.0 : ℝ) - 0 * 2 = 1 by norm_num,
      roundTo_two_one]
    norm_num
  · simp only [faceAngleBranch]
    rw [if_pos hcond, habs, show (1.0 : ℝ) - 0 * 2 = 1 by norm_num]
    rw [if_pos (by norm_num : (0.6 : ℝ) < 1)]
  · intro r hrok
    simp only [performComprehensiveAnalysis] at hrok
    by_cases hv : resultValidationOk (detectFaceAngle lms)
        (analyzeFaceProportions lms shape)
    · rw [if_pos hv] at hrok
      injection hrok with h'
      rw [← h']
      show getAngleWarning (detectFaceAngle lms) = none
      rw [detectFaceAngle_eq lms hz, hratio]
      unfold getAngleWarning
      simp only [faceAngleBranch]
      rw [if_pos hcond, habs, show (1.0 : ℝ) - 0 * 2 = 1 by norm_num]
      rw [if_pos (by norm_num : (0.6 : ℝ) < 1)]
      rfl
    · rw [if_neg hv] at hrok
      exact Except.noConfusion hrok

/-- Landmark set shared by the C5 counterexample and the C8 witness: nose
tip x = 0.5 exactly midway between cheek x coordinates 0.2 and 0.8; on a
10x10 image the pixel face width is 6 ≠ 0, so result assembly succeeds. -/
def symLms : LandmarkSet :=
  ⟨468, fun i =>
    if i = 1 then ⟨0.5, 0⟩
    else if i = 234 then ⟨0.2, 0⟩
    else if i = 454 then ⟨0.8, 0⟩
    else ⟨0, 0⟩⟩

lemma symLms_left : leftCheekDist symLms = 0.3 := by
  show |(0.5 : ℝ) - 0.2| = 0.3
  rw [abs_of_nonneg (by norm_num)]
  norm_num

lemma symLms_right : rightCheekDist symLms = 0.3 := by
  show |(0.5 : ℝ) - 0.8| = 0.3
  rw [abs_of_nonpos (by norm_num)]
  norm_num

lemma symLms_faceWidth : faceWidth symLms (10, 10) = 6 := by
  show calcDistance ⟨0.2, 0⟩ ⟨0.8, 0⟩ (10, 10) = 6
  unfold calcDistance
  norm_num
  have p2 : pyInt (2 : ℝ) = 2 := by
    rw [show (2 : ℝ) = ((2 : ℤ) : ℝ) by norm_num]
    exact pyInt_intCast 2
  have p8 : pyInt (8 : ℝ) = 8 := by
    rw [show (8 : ℝ) = ((8 : ℤ) : ℝ) by norm_num]
    exact pyInt_intCast 8
  have p0 : pyInt (0 : ℝ) = 0 := by
    rw [show (0 : ℝ) = ((0 : ℤ) : ℝ) by norm_num]
    exact pyInt_intCast 0
  rw [p2, p8]
  push_cast
  rw [show ((8 : ℝ) - 2) ^ 2 = 6 ^ 2 by norm_num]
  exact Real.sqrt_sq (by norm_num)

lemma symLms_validation :
    resultValidationOk (detectFaceAngle symLms)
      (analyzeFaceProportions symLms (10, 10)) := by
  obtain ⟨hra, hco⟩ := faceAngle_eval_half symLms_left symLms_right
  refine ⟨⟨0.5, hra, by norm_num, by norm_num⟩, ?_, ?_, ?_⟩
  · rw [hco]
    norm_num
  · rw [hco]
  · have hw : faceWidth symLms (10, 10) ≠ 0 := by
      rw [symLms_faceWidth]
      norm_num
    unfold analyzeFaceProportions
    rw [if_neg hw]
    exact ⟨_, rfl⟩

/-- Witness for C8: the theorem instantiated at `symLms` on a 10x10 image,
with the midway and nonzero-distance hypotheses discharged numerically, plus
the non-vacuity fact that the pipeline really assembles a record there (and
its angle warning is `none`). -/
theorem symmetric_frontal_scenario_witness :
    ((symLms.point Idx.nose_tip).x - (symLms.point Idx.left_cheek).x =
        (symLms.point Idx.right_cheek).x - (symLms.point Idx.nose_tip).x) ∧
      leftCheekDist symLms ≠ 0 ∧ rightCheekDist symLms ≠ 0 ∧
      ((detectFaceAngle symLms).ratio = some 0.5 ∧
        (detectFaceAngle symLms).angle = "正面" ∧
        (detectFaceAngle symLms).confidence = 1.0 ∧
        (detectFaceAngle symLms).suitable_for_analysis = true ∧
        ∀ r : FaceAnalysisResult,
          performComprehensiveAnalysis symLms (10, 10) "image.jpg" 0 =
              Except.ok r →
            r.angle_warning = none) ∧
      ∃ r : FaceAnalysisResult,
        performComprehensiveAnalysis symLms (10, 10) "image.jpg" 0 =
            Except.ok r ∧
          r.angle_warning = none := by
  have h1 : (symLms.point Idx.nose_tip).x - (symLms.point Idx.left_cheek).x =
      (symLms.point Idx.right_cheek).x - (symLms.point Idx.nose_tip).x := by
    show (0.5 : ℝ) - 0.2 = 0.8 - 0.5
    norm_num
  have h2 : leftCheekDist symLms ≠ 0 := by
    rw [symLms_left]
    norm_num
  have h3 : rightCheekDist symLms ≠ 0 := by
    rw [symLms_right]
    norm_num
  have main := symmetric_frontal_scenario symLms (10, 10) "image.jpg" 0 h1 h2 h3
  have hok : ∃ r : FaceAnalysisResult,
      performComprehensiveAnalysis symLms (10, 10) "image.jpg" 0 =
        Except.ok r := by
    simp only [performComprehensiveAnalysis]
    rw [if_pos symLms_validation]
    exact ⟨_, rfl⟩
  obtain ⟨r, hrok⟩ := hok
  exact ⟨h1, h2, h3, main, r, hrok, main.2.2.2.2 r hrok⟩

/-- C1 (code bug): on zero measured face width the proportions sub-analysis
does recover locally (it returns the error-marker dict instead of raising),
but the whole analyze call nevertheless fails: pydantic validation of
`FaceAnalysisResult` rejects the error dict (the five required
`FaceProportions` fields are missing) and the `ValidationError` is re-raised
as `AnalysisError` with stage "comprehensive_analysis", contradicting the
claim that the call succeeds with the error surfaced only inside the
measurement. -/
theorem zero_face_width_aborts_analysis :
    ∀ (lms : LandmarkSet) (shape : ℕ × ℕ) (filename : String) (now : ℕ),
      faceWidth lms shape = 0 →
      analyzeFaceProportions lms shape =
          ProportionsResult.error "顔の幅を測定できませんでした" ∧
        performComprehensiveAnalysis lms shape filename now =
          Except.error { stage := "comprehensive_analysis" } := by
  intro lms shape fn now h
  have hp : analyzeFaceProportions lms shape =
      ProportionsResult.error "顔の幅を測定できませんでした" := by
    unfold analyzeFaceProportions
    rw [if_pos h]
  refine ⟨hp, ?_⟩
  have hv : ¬resultValidationOk (detectFaceAngle lms)
      (analyzeFaceProportions lms shape) := by
    intro hok
    obtain ⟨rec, hrec⟩ := hok.2.2.2
    rw [hp] at hrec
    exact ProportionsResult.noConfusion hrec
  simp only [performComprehensiveAnalysis]
  rw [if_neg hv]

/-- Landmark set (all points at the origin) whose measured face width is
zero, used to instantiate the C1 theorem. -/
def c1Lms : LandmarkSet := ⟨468, fun _ => ⟨0, 0⟩⟩

lemma c1_faceWidth : faceWidth c1Lms (1, 1) = 0 := by
  show calcDistance ⟨0, 0⟩ ⟨0, 0⟩ (1, 1) = 0
  unfold calcDistance
  simp

/-- Witness for C1: the theorem instantiated at the concrete zero-width
landmark set `c1Lms`. -/
theorem zero_face_width_aborts_analysis_witness :
    faceWidth c1Lms (1, 1) = 0 ∧
      (analyzeFaceProportions c1Lms (1, 1) =
          ProportionsResult.error "顔の幅を測定できませんでした" ∧
        performComprehensiveAnalysis c1Lms (1, 1) "image.jpg" 0 =
          Except.error { stage := "comprehensive_analysis" }) :=
  ⟨c1_faceWidth,
    zero_face_width_aborts_analysis c1Lms (1, 1) "image.jpg" 0 c1_faceWidth⟩

/-- C5 counterexample: on a landmark set and dimensions where result
assembly succeeds (`symLms` on a 10x10 image, face width 6), two calls at
different wall-clock instants produce different analysis results — the
`timestamp` field of the assembled records differs. -/
theorem analysis_not_bit_identical :
    performComprehensiveAnalysis symLms (10, 10) "image.jpg" 0 ≠
      performComprehensiveAnalysis symLms (10, 10) "image.jpg" 1 := by
  intro h
  simp only [performComprehensiveAnalysis] at h
  rw [if_pos symLms_validation] at h
  rw [if_pos symLms_validation] at h
  injection h with h'
  exact Nat.zero_ne_one (congrArg FaceAnalysisResult.timestamp h')

/-- C5 (amended): for fixed landmark set, dimensions and filename, the
analysis outcome is determined up to the `timestamp` field: two calls either
fail with the same error, or assemble records that are equal once their
timestamps are overwritten. -/
theorem analysis_deterministic_up_to_timestamp :
    ∀ (lms : LandmarkSet) (shape : ℕ × ℕ) (filename : String) (t1 t2 : ℕ),
      (performComprehensiveAnalysis lms shape filename t1).map
          (fun r : FaceAnalysisResult => { r with timestamp := 0 }) =
        (performComprehensiveAnalysis lms shape filename t2).map
          (fun r : FaceAnalysisResult => { r with timestamp := 0 }) := by
  intro lms shape fn t1 t2
  simp only [performComprehensiveAnalysis]
  split_ifs <;> rfl

end
